import Mathlib

/-!
# Verification of the sports-scheduling constraint parser

A shallow embedding of `src/api/parse.py` (the rule-based natural-language
constraint parser) together with proofs of the specified properties.

Text is modelled as `List Char`; Python's `str.lower()` / `str.capitalize()` /
`str.rstrip`, substring containment (`in`), and the regular-expression calls
(`re.finditer`, `re.search`) are modelled explicitly.  Character classes
(`\w`, `\d`, `\s`, `[A-Z]`) are interpreted over ASCII, which covers every
character the keyword sets and patterns of the source can match.
-/

namespace ConstraintParser

/-- Python `needle in hay` (substring containment) on character lists. -/
def pyContains (hay needle : List Char) : Bool := decide (needle <:+: hay)

/-- Python `str.lower()` (ASCII). -/
def pyLower (s : List Char) : List Char := s.map Char.toLower

/-- Python `str.rstrip('s')`: remove all trailing `'s'` characters
(only the lower-case letter, matching the Python argument). -/
def pyRstripS (s : List Char) : List Char :=
  (s.reverse.dropWhile (fun c => c = 's')).reverse

/-- Python `str.capitalize()` (ASCII): first character upper-cased,
the rest lower-cased. -/
def pyCapitalize : List Char → List Char
  | [] => []
  | c :: rest => c.toUpper :: rest.map Char.toLower

/-- Python `int()` on a non-empty string of decimal digits. -/
def digitsToNat (s : List Char) : Nat :=
  s.foldl (fun a c => a * 10 + (c.toNat - 48)) 0

/-! ## A model of the regular expressions used by the source

The source uses a fixed set of regexes whose only constructs are literals,
the classes `\w`, `\d`, `\s`, `[A-Z]`, alternation, greedy `*`/`+` over a
single class, greedy `?`, counted repetition `{1,2}`/`{2}` of `\d`, and the
word boundary `\b`.  `lens` computes every length a pattern can consume at
a position, in Python's backtracking priority order (left alternative
first, greedy quantifiers longest-first), so the head of the list is the
length Python's engine picks. -/

/-- The character classes appearing in the source patterns (ASCII reading
of Python's `\w`, `\d`, `\s`, and the range `[A-Z]`). -/
inductive CC where
  | word | digit | space | upper
deriving DecidableEq, Repr

def ccMatch : CC → Char → Bool
  | .word, c => c.isAlphanum || c = '_'
  | .digit, c => c.isDigit
  | .space, c => c = ' ' || c = '\t' || c = '\n' || c = '\r' || c = '\x0b' || c = '\x0c'
  | .upper, c => 'A' ≤ c && c ≤ 'Z'

/-- Abstract syntax for the source regexes. -/
inductive Pat where
  | fail
  | eps
  | cls (c : CC)
  | lit (s : List Char)
  | litCI (s : List Char)
  | seq (p q : Pat)
  | alt (p q : Pat)
  | opt (p : Pat)
  | starCls (c : CC)
  | plusCls (c : CC)
  | bnd
deriving DecidableEq, Repr

/-- Case-insensitive prefix test (for `re.IGNORECASE` literals). -/
def ciPrefix : List Char → List Char → Bool
  | [], _ => true
  | _ :: _, [] => false
  | a :: as, b :: bs => (a.toLower = b.toLower) && ciPrefix as bs

def isWordOpt : Option Char → Bool
  | none => false
  | some c => ccMatch .word c

/-- `\b`: word boundary between the previous character and the next one
(string edges count as non-word). -/
def boundaryOk (prev next : Option Char) : Bool :=
  isWordOpt prev != isWordOpt next

/-- Length of the maximal run of characters of class `c` at the front. -/
def maxRun (c : CC) : List Char → Nat
  | [] => 0
  | ch :: t => if ccMatch c ch then maxRun c t + 1 else 0

/-- `[n, n-1, ..., 0]`: candidate lengths of a greedy `*`, longest first. -/
def countdown : Nat → List Nat
  | 0 => [0]
  | n + 1 => (n + 1) :: countdown n

/-- The previous character after consuming `consumed` (for `\b`). -/
def lastOr (prev : Option Char) (consumed : List Char) : Option Char :=
  match consumed.getLast? with
  | some c => some c
  | none => prev

def concatMap (f : α → List β) : List α → List β
  | [] => []
  | a :: t => f a ++ concatMap f t

/-- All lengths `p` can consume at the front of `s` (given the previous
character `prev`), in Python backtracking priority order. -/
def lens : Pat → Option Char → List Char → List Nat
  | .fail, _, _ => []
  | .eps, _, _ => [0]
  | .bnd, prev, s => if boundaryOk prev s.head? then [0] else []
  | .cls c, _, s =>
      match s with
      | [] => []
      | ch :: _ => if ccMatch c ch then [1] else []
  | .lit l, _, s => if l.isPrefixOf s then [l.length] else []
  | .litCI l, _, s => if ciPrefix l s then [l.length] else []
  | .seq p q, prev, s =>
      concatMap (fun n =>
        (lens q (lastOr prev (s.take n)) (s.drop n)).map (fun m => n + m))
        (lens p prev s)
  | .alt p q, prev, s => lens p prev s ++ lens q prev s
  | .opt p, prev, s => lens p prev s ++ [0]
  | .starCls c, _, s => countdown (maxRun c s)
  | .plusCls c, _, s => (countdown (maxRun c s)).dropLast

/-- One step of `re.finditer`: the match Python picks at this position,
if any. -/
def firstLen (p : Pat) (prev : Option Char) (s : List Char) : Option Nat :=
  (lens p prev s).head?

/-- `re.finditer`: non-overlapping matches, scanning left to right; after a
match the scan resumes at its end (or one character further for an empty
match).  `fuel` bounds the recursion; `s.length + 1` always suffices. -/
def finditerAux (p : Pat) : Nat → Option Char → List Char → List (List Char)
  | 0, _, _ => []
  | _ + 1, prev, [] =>
      match firstLen p prev [] with
      | some _ => [[]]
      | none => []
  | fuel + 1, prev, s@(ch :: rest) =>
      match firstLen p prev s with
      | some n =>
          if n = 0 then
            [] :: finditerAux p fuel (some ch) rest
          else
            s.take n :: finditerAux p fuel (lastOr prev (s.take n)) (s.drop n)
      | none => finditerAux p fuel (some ch) rest

def finditer (p : Pat) (s : List Char) : List (List Char) :=
  finditerAux p (s.length + 1) none s

/-- First backtracking solution of `pre (grp) post` at the front of `s`:
returns the text captured by the group. -/
def firstTriple (pre grp post : Pat) (prev : Option Char) (s : List Char) :
    Option (List Char) :=
  (concatMap (fun a =>
    let s1 := s.drop a
    let p1 := lastOr prev (s.take a)
    concatMap (fun b =>
      let s2 := s1.drop b
      let p2 := lastOr p1 (s1.take b)
      (lens post p2 s2).map (fun _ => s1.take b))
      (lens grp p1 s1))
    (lens pre prev s)).head?

/-- `re.search` for a pattern of shape `pre (grp) post`, returning the
group of the leftmost match. -/
def searchAux (pre grp post : Pat) : Nat → Option Char → List Char → Option (List Char)
  | 0, _, _ => none
  | _ + 1, prev, [] => firstTriple pre grp post prev []
  | fuel + 1, prev, s@(ch :: rest) =>
      match firstTriple pre grp post prev s with
      | some r => some r
      | none => searchAux pre grp post fuel (some ch) rest

def search1 (pre grp post : Pat) (s : List Char) : Option (List Char) :=
  searchAux pre grp post (s.length + 1) none s

/-! ## The concrete patterns of `parse.py` -/

def litS (s : String) : Pat := .lit s.data
def litCIS (s : String) : Pat := .litCI s.data
def seqL (ps : List Pat) : Pat := ps.foldr .seq .eps
def altL (ps : List Pat) : Pat := ps.foldr .alt .fail

/-- `\d{1,2}` (greedy: two digits preferred). -/
def d12 : Pat := .seq (.cls .digit) (.opt (.cls .digit))

/-- `r'\b(Team\s+[A-Z]\w*|[A-Z]\w+\s+Team|[A-Z]\w+s)\b'` -/
def team_pattern : Pat :=
  seqL [.bnd,
        altL [seqL [litS "Team", .plusCls .space, .cls .upper, .starCls .word],
              seqL [.cls .upper, .plusCls .word, .plusCls .space, litS "Team"],
              seqL [.cls .upper, .plusCls .word, litS "s"]],
        .bnd]

def dayNamesCap : List String :=
  ["Monday", "Tuesday", "Wednesday", "Thursday", "Friday", "Saturday", "Sunday"]

/-- `r'\b(Monday|...|Sunday|Mondays|...|Sundays)\b'` with `re.IGNORECASE`. -/
def days_pattern : Pat :=
  seqL [.bnd,
        altL ((dayNamesCap ++ dayNamesCap.map (fun d => d ++ "s")).map litCIS),
        .bnd]

/-- `(?:AM|PM|am|pm)` -/
def ampm : Pat := altL [litS "AM", litS "PM", litS "am", litS "pm"]

/-- `r'\b(\d{1,2}:\d{2}\s*(?:AM|PM|am|pm)?|\d{1,2}\s*(?:AM|PM|am|pm))\b'` -/
def time_pattern : Pat :=
  seqL [.bnd,
        altL [seqL [d12, litS ":", .cls .digit, .cls .digit, .starCls .space, .opt ampm],
              seqL [d12, .starCls .space, ampm]],
        .bnd]

/-- `r'\b(\d+)\b'` -/
def number_pattern : Pat := seqL [.bnd, .plusCls .digit, .bnd]

/-- `r'\b(Field\s+\d+|Court\s+\d+|Stadium|Arena|Gym|Gymnasium)\b'` with `re.IGNORECASE`. -/
def venue_pattern : Pat :=
  seqL [.bnd,
        altL [seqL [litCIS "Field", .plusCls .space, .plusCls .digit],
              seqL [litCIS "Court", .plusCls .space, .plusCls .digit],
              litCIS "Stadium", litCIS "Arena", litCIS "Gym", litCIS "Gymnasium"],
        .bnd]

/-- `(?:am|pm)` — the lower-case variant used by the before/after searches. -/
def ampmLower : Pat := altL [litS "am", litS "pm"]

/-- The group `(\d{1,2}:\d{2}\s*(?:am|pm)?|\d{1,2}\s*(?:am|pm))` of the
`before`/`after` searches in `_parse_temporal_constraint`. -/
def time_group_lower : Pat :=
  altL [seqL [d12, litS ":", .cls .digit, .cls .digit, .starCls .space, .opt ampmLower],
        seqL [d12, .starCls .space, ampmLower]]

/-! ## Data model (§3 of the spec, from the result dict of `parse.py`) -/

/-- An entity's `value` is a string or (for `number` entities) an integer. -/
inductive EntityValue where
  | str (s : String)
  | num (n : Nat)
deriving DecidableEq, Repr

structure Entity where
  type : String
  value : EntityValue
  confidence : ℚ
deriving DecidableEq, Repr

structure Condition where
  operator : String
  value : String
deriving DecidableEq, Repr

structure Temporal where
  days_of_week : List String
  excluded_dates : List String
  time_ranges : List String
  before_time : Option String
  after_time : Option String
deriving DecidableEq, Repr

structure Capacity where
  max_count : Option Nat
  min_count : Option Nat
  per_period : Option String
  resource : Option String
deriving DecidableEq, Repr

structure Location where
  required_venue : Option String
  excluded_venues : List String
  home_away_preference : Option String
deriving DecidableEq, Repr

structure Rest where
  min_hours : Option Nat
  min_days : Option Nat
  between_events : Bool
deriving DecidableEq, Repr

structure Preference where
  preferred_times : List String
  preferred_days : List String
  weight : ℚ
deriving DecidableEq, Repr

/-- The root result record.  The five category slots start as the empty
dict `{}` in the source; `none` models that untouched default. -/
structure ParseResult where
  type : String
  entities : List Entity
  conditions : List Condition
  confidence : ℚ
  temporal : Option Temporal
  capacity : Option Capacity
  location : Option Location
  preference : Option Preference
  rest : Option Rest
deriving DecidableEq, Repr

/-! ## Classifier (`_classify_constraint_type`) -/

def temporal_keywords : List String :=
  ["monday", "tuesday", "wednesday", "thursday", "friday", "saturday", "sunday",
   "time", "hour", "am", "pm", "morning", "afternoon", "evening", "night",
   "before", "after", "during", "date", "week", "month", "day"]

def capacity_keywords : List String :=
  ["maximum", "minimum", "limit", "capacity", "more than", "less than",
   "no more", "at least", "per day", "per week", "games", "matches"]

def location_keywords : List String :=
  ["field", "venue", "location", "home", "away", "court", "stadium",
   "ground", "facility", "site", "place"]

def rest_keywords : List String :=
  ["rest", "break", "between", "gap", "interval", "recovery",
   "days between", "hours between", "time between"]

def preference_keywords : List String :=
  ["prefer", "like", "want", "wish", "would like", "ideally",
   "better", "favor", "rather"]

/-- `sum(1 for keyword in keywords if keyword in text)` -/
def keywordScore (keywords : List String) (text : List Char) : Nat :=
  (keywords.filter (fun k => pyContains text k.data)).length

/-- `max(scores, key=scores.get)` over a dict returns the first key (in
insertion order temporal, capacity, location, rest, preference) whose
score attains the maximum; the source returns `"unknown"` when the
maximum is `0`. -/
def first_max_category (st sc sl sr sp : Nat) : String :=
  let m := max st (max sc (max sl (max sr sp)))
  if m = 0 then "unknown"
  else if st = m then "temporal"
  else if sc = m then "capacity"
  else if sl = m then "location"
  else if sr = m then "rest"
  else "preference"

/-- `_classify_constraint_type` -/
def classify_constraint_type (text : List Char) : String :=
  first_max_category
    (keywordScore temporal_keywords text)
    (keywordScore capacity_keywords text)
    (keywordScore location_keywords text)
    (keywordScore rest_keywords text)
    (keywordScore preference_keywords text)

/-! ## Entity extraction (`_extract_entities`) -/

def teamEntities (text : List Char) : List Entity :=
  (finditer team_pattern text).map (fun m =>
    { type := "team", value := .str (String.mk m), confidence := 8/10 })

def dayEntities (text : List Char) : List Entity :=
  (finditer days_pattern text).map (fun m =>
    { type := "day_of_week",
      value := .str (String.mk (pyCapitalize (pyRstripS m))),
      confidence := 95/100 })

def timeEntities (text : List Char) : List Entity :=
  (finditer time_pattern text).map (fun m =>
    { type := "time", value := .str (String.mk m), confidence := 9/10 })

def numberEntities (text : List Char) : List Entity :=
  (finditer number_pattern text).map (fun m =>
    { type := "number", value := .num (digitsToNat m), confidence := 85/100 })

def venueEntities (text : List Char) : List Entity :=
  (finditer venue_pattern text).map (fun m =>
    { type := "venue", value := .str (String.mk m), confidence := 9/10 })

/-- The source appends the results of the five independent scans to one
list, in the order team, day_of_week, time, number, venue. -/
def extract_entities (text : List Char) : List Entity :=
  teamEntities text ++ dayEntities text ++ timeEntities text ++
    numberEntities text ++ venueEntities text

/-! ## Category parsers -/

def dayNamesLower : List String :=
  ["monday", "tuesday", "wednesday", "thursday", "friday", "saturday", "sunday"]

/-- `_parse_temporal_constraint` -/
def parse_temporal_constraint (text : List Char) : Temporal :=
  { days_of_week :=
      (dayNamesLower.filter (fun d =>
        pyContains text d.data || pyContains text (d ++ "s").data)).map
        (fun d => String.mk (pyCapitalize d.data)),
    excluded_dates := [],
    time_ranges := [],
    before_time :=
      if pyContains text "before".data then
        (search1 (seqL [litS "before", .plusCls .space]) time_group_lower .eps text).map
          String.mk
      else none,
    after_time :=
      if pyContains text "after".data then
        (search1 (seqL [litS "after", .plusCls .space]) time_group_lower .eps text).map
          String.mk
      else none }

/-- First `some` in a list: models a for-loop over patterns with `break`. -/
def firstSome : List (Option α) → Option α
  | [] => none
  | some a :: _ => some a
  | none :: t => firstSome t

/-- `_parse_capacity_constraint` -/
def parse_capacity_constraint (text : List Char) : Capacity :=
  { max_count :=
      (firstSome
        [search1 (litS "no more than ") (.plusCls .digit) .eps text,
         search1 (litS "maximum ") (.plusCls .digit) .eps text,
         search1 (litS "at most ") (.plusCls .digit) .eps text,
         search1 .eps (.plusCls .digit) (litS " or fewer") text]).map digitsToNat,
    min_count :=
      (firstSome
        [search1 (litS "at least ") (.plusCls .digit) .eps text,
         search1 (litS "minimum ") (.plusCls .digit) .eps text,
         search1 .eps (.plusCls .digit) (litS " or more") text]).map digitsToNat,
    per_period :=
      if pyContains text "per day".data then some "day"
      else if pyContains text "per week".data then some "week"
      else if pyContains text "per hour".data then some "hour"
      else none,
    resource := none }

/-- `_parse_location_constraint`: a stub returning all defaults. -/
def parse_location_constraint (_text : List Char) : Location :=
  { required_venue := none, excluded_venues := [], home_away_preference := none }

/-- `_parse_rest_constraint` -/
def parse_rest_constraint (text : List Char) : Rest :=
  { min_hours :=
      (search1 .eps (.plusCls .digit)
        (seqL [.plusCls .space, litS "hour", .opt (litS "s"), .plusCls .space,
               litS "between"]) text).map digitsToNat,
    min_days :=
      (search1 .eps (.plusCls .digit)
        (seqL [.plusCls .space, litS "day", .opt (litS "s"), .plusCls .space,
               litS "between"]) text).map digitsToNat,
    between_events := true }

/-- `_parse_preference_constraint`: a stub with `weight` fixed at `0.5`. -/
def parse_preference_constraint (_text : List Char) : Preference :=
  { preferred_times := [], preferred_days := [], weight := 5/10 }

/-! ## Condition extractors (each an if/elif chain: first cue wins) -/

def extract_temporal_conditions (text : List Char) : List Condition :=
  if pyContains text "cannot".data || pyContains text "not".data then
    [{ operator := "not_equals", value := "specified_time" }]
  else if pyContains text "must".data || pyContains text "only".data then
    [{ operator := "equals", value := "specified_time" }]
  else if pyContains text "before".data then
    [{ operator := "less_than", value := "specified_time" }]
  else if pyContains text "after".data then
    [{ operator := "greater_than", value := "specified_time" }]
  else []

def extract_capacity_conditions (text : List Char) : List Condition :=
  if pyContains text "no more than".data || pyContains text "maximum".data then
    [{ operator := "less_than_or_equal", value := "max_count" }]
  else if pyContains text "at least".data || pyContains text "minimum".data then
    [{ operator := "greater_than_or_equal", value := "min_count" }]
  else []

def extract_location_conditions (text : List Char) : List Condition :=
  if pyContains text "must".data && pyContains text "home".data then
    [{ operator := "equals", value := "home_venue" }]
  else if pyContains text "cannot".data then
    [{ operator := "not_equals", value := "specified_venue" }]
  else []

def extract_rest_conditions (text : List Char) : List Condition :=
  if pyContains text "at least".data || pyContains text "minimum".data then
    [{ operator := "greater_than_or_equal", value := "min_rest_period" }]
  else []

def extract_preference_conditions (text : List Char) : List Condition :=
  if pyContains text "prefer".data || pyContains text "like".data then
    [{ operator := "prefer", value := "specified_option" }]
  else []

/-! ## Confidence scorer (`_calculate_confidence`) -/

/-- Python's `v is not None and v != []` test over the fields of the
temporal record. -/
def temporalPopulated (t : Temporal) : Bool :=
  !t.days_of_week.isEmpty || !t.excluded_dates.isEmpty || !t.time_ranges.isEmpty ||
    t.before_time.isSome || t.after_time.isSome

def capacityPopulated (c : Capacity) : Bool :=
  c.max_count.isSome || c.min_count.isSome || c.per_period.isSome || c.resource.isSome

def locationPopulated (l : Location) : Bool :=
  l.required_venue.isSome || !l.excluded_venues.isEmpty || l.home_away_preference.isSome

/-- A boolean field is never `None` and never `[]`, so `between_events`
always passes Python's populated-field test. -/
def restPopulated (r : Rest) : Bool :=
  r.min_hours.isSome || r.min_days.isSome || true

/-- A numeric field is never `None` and never `[]`, so `weight` always
passes Python's populated-field test. -/
def preferencePopulated (p : Preference) : Bool :=
  !p.preferred_times.isEmpty || !p.preferred_days.isEmpty || true

/-- `parsed_result.get(parsed_result["type"], {})` followed by
`constraint_data and any(v is not None and v != [] ...)`: an absent slot
(the untouched `{}`) is falsy and contributes nothing. -/
def constraintDataPopulated (r : ParseResult) : Bool :=
  if r.type = "temporal" then
    match r.temporal with | some t => temporalPopulated t | none => false
  else if r.type = "capacity" then
    match r.capacity with | some c => capacityPopulated c | none => false
  else if r.type = "location" then
    match r.location with | some l => locationPopulated l | none => false
  else if r.type = "preference" then
    match r.preference with | some p => preferencePopulated p | none => false
  else if r.type = "rest" then
    match r.rest with | some s => restPopulated s | none => false
  else false

/-- `_calculate_confidence` (the `text` argument is unused in the source
as well). -/
def calculate_confidence (_text : List Char) (r : ParseResult) : ℚ :=
  let score : ℚ := 0
  let score := if r.type ≠ "unknown" then score + 3/10 else score
  let score :=
    if 0 < r.entities.length then
      score + min (3/10) ((r.entities.length : ℚ) * (1/10))
    else score
  let score :=
    if 0 < r.conditions.length then
      score + min (2/10) ((r.conditions.length : ℚ) * (1/10))
    else score
  let score := if constraintDataPopulated r then score + 2/10 else score
  min 1 score

/-! ## The pipeline (`_parse_constraint`)

The source initialises the result record, classifies, extracts entities,
fills the category slot and conditions for the matched type, and finally
sets the confidence.  `assemble_result` is everything before the final
confidence assignment. -/

def assemble_result (text : String) : ParseResult :=
  let textLower := pyLower text.data
  let ctype := classify_constraint_type textLower
  let entities := extract_entities text.data
  let r0 : ParseResult :=
    { type := ctype, entities := entities, conditions := [], confidence := 0,
      temporal := none, capacity := none, location := none,
      preference := none, rest := none }
  if ctype = "temporal" then
    { r0 with temporal := some (parse_temporal_constraint textLower),
              conditions := extract_temporal_conditions textLower }
  else if ctype = "capacity" then
    { r0 with capacity := some (parse_capacity_constraint textLower),
              conditions := extract_capacity_conditions textLower }
  else if ctype = "location" then
    { r0 with location := some (parse_location_constraint textLower),
              conditions := extract_location_conditions textLower }
  else if ctype = "rest" then
    { r0 with rest := some (parse_rest_constraint textLower),
              conditions := extract_rest_conditions textLower }
  else if ctype = "preference" then
    { r0 with preference := some (parse_preference_constraint textLower),
              conditions := extract_preference_conditions textLower }
  else r0

def parse_constraint (text : String) : ParseResult :=
  let r1 := assemble_result text
  { r1 with confidence := calculate_confidence text.data r1 }

/-! ## Spec-side definitions used by the stated properties -/

/-- The four additive terms of the score, written unconditionally
(the spec's formulation in §4.5). -/
def confidence_terms (r : ParseResult) : ℚ :=
  (if r.type ≠ "unknown" then 3/10 else 0)
    + min (3/10) ((r.entities.length : ℚ) * (1/10))
    + min (2/10) ((r.conditions.length : ℚ) * (1/10))
    + (if constraintDataPopulated r then 2/10 else 0)

/-- The spec's confidence formula: the clamped sum of the four terms. -/
def confidence_spec (r : ParseResult) : ℚ := min 1 (confidence_terms r)

/-- Well-formedness of a result record (§3 invariants of the spec):
the type is one of the six categories, the confidence and every entity
confidence lie in [0,1]. -/
def WellFormedResult (r : ParseResult) : Prop :=
  (r.type = "temporal" ∨ r.type = "capacity" ∨ r.type = "location" ∨
    r.type = "rest" ∨ r.type = "preference" ∨ r.type = "unknown") ∧
  0 ≤ r.confidence ∧ r.confidence ≤ 1 ∧
  ∀ e ∈ r.entities, (0:ℚ) ≤ e.confidence ∧ e.confidence ≤ 1

/-! ## Helper lemmas about the classifier -/

lemma first_max_category_cases (st sc sl sr sp : Nat) :
    first_max_category st sc sl sr sp = "temporal" ∨
    first_max_category st sc sl sr sp = "capacity" ∨
    first_max_category st sc sl sr sp = "location" ∨
    first_max_category st sc sl sr sp = "rest" ∨
    first_max_category st sc sl sr sp = "preference" ∨
    first_max_category st sc sl sr sp = "unknown" := by
  simp only [first_max_category]
  split_ifs <;> simp

lemma first_max_category_unknown_iff (st sc sl sr sp : Nat) :
    first_max_category st sc sl sr sp = "unknown" ↔
      st = 0 ∧ sc = 0 ∧ sl = 0 ∧ sr = 0 ∧ sp = 0 := by
  simp only [first_max_category]
  split_ifs with h0 h1 h2 h3 h4
  · exact iff_of_true rfl (by omega)
  all_goals exact iff_of_false (by decide) (by omega)

lemma first_max_category_temporal (st sc sl sr sp : Nat)
    (h : first_max_category st sc sl sr sp = "temporal") :
    sc ≤ st ∧ sl ≤ st ∧ sr ≤ st ∧ sp ≤ st := by
  simp only [first_max_category] at h
  split_ifs at h with h0 h1 h2 h3 h4
  all_goals first | (exact absurd h (by decide)) | omega

lemma first_max_category_capacity (st sc sl sr sp : Nat)
    (h : first_max_category st sc sl sr sp = "capacity") :
    st < sc ∧ sl ≤ sc ∧ sr ≤ sc ∧ sp ≤ sc := by
  simp only [first_max_category] at h
  split_ifs at h with h0 h1 h2 h3 h4
  all_goals first | (exact absurd h (by decide)) | omega

lemma first_max_category_location (st sc sl sr sp : Nat)
    (h : first_max_category st sc sl sr sp = "location") :
    st < sl ∧ sc < sl ∧ sr ≤ sl ∧ sp ≤ sl := by
  simp only [first_max_category] at h
  split_ifs at h with h0 h1 h2 h3 h4
  all_goals first | (exact absurd h (by decide)) | omega

lemma first_max_category_rest (st sc sl sr sp : Nat)
    (h : first_max_category st sc sl sr sp = "rest") :
    st < sr ∧ sc < sr ∧ sl < sr ∧ sp ≤ sr := by
  simp only [first_max_category] at h
  split_ifs at h with h0 h1 h2 h3 h4
  all_goals first | (exact absurd h (by decide)) | omega

lemma first_max_category_preference (st sc sl sr sp : Nat)
    (h : first_max_category st sc sl sr sp = "preference") :
    st < sp ∧ sc < sp ∧ sl < sp ∧ sr < sp := by
  simp only [first_max_category] at h
  split_ifs at h with h0 h1 h2 h3 h4
  all_goals first | (exact absurd h (by decide)) | omega

lemma classify_cases (l : List Char) :
    classify_constraint_type l = "temporal" ∨
    classify_constraint_type l = "capacity" ∨
    classify_constraint_type l = "location" ∨
    classify_constraint_type l = "rest" ∨
    classify_constraint_type l = "preference" ∨
    classify_constraint_type l = "unknown" :=
  first_max_category_cases _ _ _ _ _

/-! ## Helper lemmas about the assembled result -/

lemma parse_constraint_eq (t : String) :
    parse_constraint t =
      { assemble_result t with
        confidence := calculate_confidence t.data (assemble_result t) } := rfl

lemma assemble_result_type (t : String) :
    (assemble_result t).type = classify_constraint_type (pyLower t.data) := by
  simp only [assemble_result]
  split_ifs <;> rfl

lemma parse_constraint_type (t : String) :
    (parse_constraint t).type = classify_constraint_type (pyLower t.data) :=
  assemble_result_type t

lemma assemble_result_entities (t : String) :
    (assemble_result t).entities = extract_entities t.data := by
  simp only [assemble_result]
  split_ifs <;> rfl

lemma parse_constraint_entities (t : String) :
    (parse_constraint t).entities = extract_entities t.data :=
  assemble_result_entities t

lemma assemble_result_of_temporal (t : String)
    (h : classify_constraint_type (pyLower t.data) = "temporal") :
    assemble_result t =
      { type := "temporal", entities := extract_entities t.data,
        conditions := extract_temporal_conditions (pyLower t.data),
        confidence := 0,
        temporal := some (parse_temporal_constraint (pyLower t.data)),
        capacity := none, location := none, preference := none, rest := none } := by
  simp only [assemble_result]
  rw [h]
  simp

lemma assemble_result_of_capacity (t : String)
    (h : classify_constraint_type (pyLower t.data) = "capacity") :
    assemble_result t =
      { type := "capacity", entities := extract_entities t.data,
        conditions := extract_capacity_conditions (pyLower t.data),
        confidence := 0, temporal := none,
        capacity := some (parse_capacity_constraint (pyLower t.data)),
        location := none, preference := none, rest := none } := by
  simp only [assemble_result]
  rw [h]
  simp

lemma assemble_result_of_location (t : String)
    (h : classify_constraint_type (pyLower t.data) = "location") :
    assemble_result t =
      { type := "location", entities := extract_entities t.data,
        conditions := extract_location_conditions (pyLower t.data),
        confidence := 0, temporal := none, capacity := none,
        location := some (parse_location_constraint (pyLower t.data)),
        preference := none, rest := none } := by
  simp only [assemble_result]
  rw [h]
  simp

lemma assemble_result_of_rest (t : String)
    (h : classify_constraint_type (pyLower t.data) = "rest") :
    assemble_result t =
      { type := "rest", entities := extract_entities t.data,
        conditions := extract_rest_conditions (pyLower t.data),
        confidence := 0, temporal := none, capacity := none, location := none,
        preference := none,
        rest := some (parse_rest_constraint (pyLower t.data)) } := by
  simp only [assemble_result]
  rw [h]
  simp

lemma assemble_result_of_preference (t : String)
    (h : classify_constraint_type (pyLower t.data) = "preference") :
    assemble_result t =
      { type := "preference", entities := extract_entities t.data,
        conditions := extract_preference_conditions (pyLower t.data),
        confidence := 0, temporal := none, capacity := none, location := none,
        preference := some (parse_preference_constraint (pyLower t.data)),
        rest := none } := by
  simp only [assemble_result]
  rw [h]
  simp

lemma assemble_result_of_unknown (t : String)
    (h : classify_constraint_type (pyLower t.data) = "unknown") :
    assemble_result t =
      { type := "unknown", entities := extract_entities t.data,
        conditions := [], confidence := 0, temporal := none, capacity := none,
        location := none, preference := none, rest := none } := by
  simp only [assemble_result]
  rw [h]
  simp

/-! ## Helper lemmas about the confidence score -/

lemma count_guard_collapse (n : Nat) (s a : ℚ) (ha : 0 ≤ a) :
    (if 0 < n then s + min a ((n : ℚ) * (1/10)) else s)
      = s + min a ((n : ℚ) * (1/10)) := by
  rcases Nat.eq_zero_or_pos n with h | h
  · subst h
    simp [min_eq_right ha]
  · simp [h]

/-- The source's guarded additions agree with the unconditional sum:
when a count is `0` its `min` term is `0` anyway. -/
lemma calculate_confidence_eq (txt : List Char) (r : ParseResult) :
    calculate_confidence txt r = confidence_spec r := by
  simp only [calculate_confidence, confidence_spec, confidence_terms]
  rw [count_guard_collapse _ _ _ (by norm_num),
      count_guard_collapse _ _ _ (by norm_num)]
  congr 1
  split_ifs <;> ring

lemma confidence_terms_nonneg (r : ParseResult) : 0 ≤ confidence_terms r := by
  unfold confidence_terms
  have h1 : (0:ℚ) ≤ min (3/10) ((r.entities.length : ℚ) * (1/10)) :=
    le_min (by norm_num) (by positivity)
  have h2 : (0:ℚ) ≤ min (2/10) ((r.conditions.length : ℚ) * (1/10)) :=
    le_min (by norm_num) (by positivity)
  split_ifs <;> linarith

lemma confidence_spec_nonneg (r : ParseResult) : 0 ≤ confidence_spec r :=
  le_min (by norm_num) (confidence_terms_nonneg r)

lemma confidence_spec_le_one (r : ParseResult) : confidence_spec r ≤ 1 :=
  min_le_left _ _

lemma parse_constraint_confidence (t : String) :
    (parse_constraint t).confidence = confidence_spec (assemble_result t) :=
  calculate_confidence_eq t.data (assemble_result t)

/-- `confidence_spec` does not read the confidence field. -/
lemma confidence_spec_confupdate (r : ParseResult) (c : ℚ) :
    confidence_spec { r with confidence := c } = confidence_spec r := rfl

lemma parse_constraint_conditions (t : String) :
    (parse_constraint t).conditions = (assemble_result t).conditions := rfl

lemma parse_constraint_temporal_slot (t : String) :
    (parse_constraint t).temporal = (assemble_result t).temporal := rfl

lemma parse_constraint_capacity_slot (t : String) :
    (parse_constraint t).capacity = (assemble_result t).capacity := rfl

lemma parse_constraint_location_slot (t : String) :
    (parse_constraint t).location = (assemble_result t).location := rfl

lemma parse_constraint_preference_slot (t : String) :
    (parse_constraint t).preference = (assemble_result t).preference := rfl

lemma parse_constraint_rest_slot (t : String) :
    (parse_constraint t).rest = (assemble_result t).rest := rfl

lemma cond_len_temporal (l : List Char) :
    (extract_temporal_conditions l).length ≤ 1 := by
  unfold extract_temporal_conditions
  split_ifs <;> simp

lemma cond_len_capacity (l : List Char) :
    (extract_capacity_conditions l).length ≤ 1 := by
  unfold extract_capacity_conditions
  split_ifs <;> simp

lemma cond_len_location (l : List Char) :
    (extract_location_conditions l).length ≤ 1 := by
  unfold extract_location_conditions
  split_ifs <;> simp

lemma cond_len_rest (l : List Char) :
    (extract_rest_conditions l).length ≤ 1 := by
  unfold extract_rest_conditions
  split_ifs <;> simp

lemma cond_len_preference (l : List Char) :
    (extract_preference_conditions l).length ≤ 1 := by
  unfold extract_preference_conditions
  split_ifs <;> simp

/-- Every extracted entity carries one of the four fixed confidences. -/
lemma entity_confidence_cases (l : List Char) (e : Entity)
    (he : e ∈ extract_entities l) :
    e.confidence = 8/10 ∨ e.confidence = 95/100 ∨ e.confidence = 9/10 ∨
      e.confidence = 85/100 := by
  unfold extract_entities teamEntities dayEntities timeEntities numberEntities
    venueEntities at he
  simp only [List.mem_append, List.mem_map] at he
  rcases he with ((((⟨m, -, rfl⟩ | ⟨m, -, rfl⟩) | ⟨m, -, rfl⟩) | ⟨m, -, rfl⟩) |
    ⟨m, -, rfl⟩) <;> simp

lemma confidence_spec_ge_half (r : ParseResult)
    (h1 : r.type ≠ "unknown") (h2 : constraintDataPopulated r = true) :
    1/2 ≤ confidence_spec r := by
  unfold confidence_spec
  refine le_min (by norm_num) ?_
  unfold confidence_terms
  rw [if_pos h1, if_pos h2]
  have h3 : (0:ℚ) ≤ min (3/10) ((r.entities.length : ℚ) * (1/10)) :=
    le_min (by norm_num) (by positivity)
  have h4 : (0:ℚ) ≤ min (2/10) ((r.conditions.length : ℚ) * (1/10)) :=
    le_min (by norm_num) (by positivity)
  linarith

/-! ## The claims -/

/-- C1 (counterexample): on "Teams need at least 2 days between matches"
the pipeline does not return type `rest` with `min_days = 2` and a single
`greater_than_or_equal`/`min_rest_period` condition: the keyword scores
tie at 2 between temporal ("am" inside "teams", "day" inside "days"),
capacity ("at least", "matches") and rest ("between", "days between"),
and the tie is broken in favour of temporal. -/
theorem C1_counterexample :
    ¬((parse_constraint "Teams need at least 2 days between matches").type = "rest" ∧
      ((parse_constraint "Teams need at least 2 days between matches").rest.map
        Rest.min_days) = some (some 2) ∧
      (parse_constraint "Teams need at least 2 days between matches").conditions =
        [{ operator := "greater_than_or_equal", value := "min_rest_period" }]) := by
  decide

/-- C1 (amended): on "Teams need at least 2 days between matches" the
pipeline returns type `temporal` (first of the tied maximal categories),
the rest slot keeps its default (so no `min_days` is recorded), and the
conditions list is empty (the temporal extractor finds no cue). -/
theorem C1_amended :
    (parse_constraint "Teams need at least 2 days between matches").type = "temporal" ∧
    (parse_constraint "Teams need at least 2 days between matches").rest = none ∧
    (parse_constraint "Teams need at least 2 days between matches").conditions = [] := by
  decide

/-- C2: the classifier always returns exactly one of the six category
values; the winner attains the maximum substring-containment score and
strictly beats every category earlier in the fixed order temporal,
capacity, location, rest, preference (first maximal category); it returns
"unknown" iff all five scores are zero, in which case the five category
slots of the result keep their default values. -/
theorem C2_classification (t : String) :
    (classify_constraint_type (pyLower t.data) = "temporal" ∨
     classify_constraint_type (pyLower t.data) = "capacity" ∨
     classify_constraint_type (pyLower t.data) = "location" ∨
     classify_constraint_type (pyLower t.data) = "rest" ∨
     classify_constraint_type (pyLower t.data) = "preference" ∨
     classify_constraint_type (pyLower t.data) = "unknown") ∧
    (parse_constraint t).type = classify_constraint_type (pyLower t.data) ∧
    (classify_constraint_type (pyLower t.data) = "unknown" ↔
      (keywordScore temporal_keywords (pyLower t.data) = 0 ∧
       keywordScore capacity_keywords (pyLower t.data) = 0 ∧
       keywordScore location_keywords (pyLower t.data) = 0 ∧
       keywordScore rest_keywords (pyLower t.data) = 0 ∧
       keywordScore preference_keywords (pyLower t.data) = 0)) ∧
    (classify_constraint_type (pyLower t.data) = "temporal" →
      keywordScore capacity_keywords (pyLower t.data) ≤
        keywordScore temporal_keywords (pyLower t.data) ∧
      keywordScore location_keywords (pyLower t.data) ≤
        keywordScore temporal_keywords (pyLower t.data) ∧
      keywordScore rest_keywords (pyLower t.data) ≤
        keywordScore temporal_keywords (pyLower t.data) ∧
      keywordScore preference_keywords (pyLower t.data) ≤
        keywordScore temporal_keywords (pyLower t.data)) ∧
    (classify_constraint_type (pyLower t.data) = "capacity" →
      keywordScore temporal_keywords (pyLower t.data) <
        keywordScore capacity_keywords (pyLower t.data) ∧
      keywordScore location_keywords (pyLower t.data) ≤
        keywordScore capacity_keywords (pyLower t.data) ∧
      keywordScore rest_keywords (pyLower t.data) ≤
        keywordScore capacity_keywords (pyLower t.data) ∧
      keywordScore preference_keywords (pyLower t.data) ≤
        keywordScore capacity_keywords (pyLower t.data)) ∧
    (classify_constraint_type (pyLower t.data) = "location" →
      keywordScore temporal_keywords (pyLower t.data) <
        keywordScore location_keywords (pyLower t.data) ∧
      keywordScore capacity_keywords (pyLower t.data) <
        keywordScore location_keywords (pyLower t.data) ∧
      keywordScore rest_keywords (pyLower t.data) ≤
        keywordScore location_keywords (pyLower t.data) ∧
      keywordScore preference_keywords (pyLower t.data) ≤
        keywordScore location_keywords (pyLower t.data)) ∧
    (classify_constraint_type (pyLower t.data) = "rest" →
      keywordScore temporal_keywords (pyLower t.data) <
        keywordScore rest_keywords (pyLower t.data) ∧
      keywordScore capacity_keywords (pyLower t.data) <
        keywordScore rest_keywords (pyLower t.data) ∧
      keywordScore location_keywords (pyLower t.data) <
        keywordScore rest_keywords (pyLower t.data) ∧
      keywordScore preference_keywords (pyLower t.data) ≤
        keywordScore rest_keywords (pyLower t.data)) ∧
    (classify_constraint_type (pyLower t.data) = "preference" →
      keywordScore temporal_keywords (pyLower t.data) <
        keywordScore preference_keywords (pyLower t.data) ∧
      keywordScore capacity_keywords (pyLower t.data) <
        keywordScore preference_keywords (pyLower t.data) ∧
      keywordScore location_keywords (pyLower t.data) <
        keywordScore preference_keywords (pyLower t.data) ∧
      keywordScore rest_keywords (pyLower t.data) <
        keywordScore preference_keywords (pyLower t.data)) ∧
    (classify_constraint_type (pyLower t.data) = "unknown" →
      (parse_constraint t).temporal = none ∧ (parse_constraint t).capacity = none ∧
      (parse_constraint t).location = none ∧ (parse_constraint t).preference = none ∧
      (parse_constraint t).rest = none) := by
  refine ⟨classify_cases _, parse_constraint_type t,
    first_max_category_unknown_iff _ _ _ _ _,
    fun h => first_max_category_temporal _ _ _ _ _ h,
    fun h => first_max_category_capacity _ _ _ _ _ h,
    fun h => first_max_category_location _ _ _ _ _ h,
    fun h => first_max_category_rest _ _ _ _ _ h,
    fun h => first_max_category_preference _ _ _ _ _ h,
    fun h => ?_⟩
  rw [parse_constraint_temporal_slot, parse_constraint_capacity_slot,
    parse_constraint_location_slot, parse_constraint_preference_slot,
    parse_constraint_rest_slot, assemble_result_of_unknown t h]
  exact ⟨rfl, rfl, rfl, rfl, rfl⟩

/-- Witness for C2 on a keyword-free input (spec scenario 5): the
classifier returns "unknown" and a category slot stays default. -/
theorem C2_classification_witness :
    classify_constraint_type (pyLower "asdkjasd qweoiqwe".data) = "unknown" ∧
    (parse_constraint "asdkjasd qweoiqwe").temporal = none := by
  obtain ⟨-, -, hiff, -, -, -, -, -, hslots⟩ := C2_classification "asdkjasd qweoiqwe"
  have hu : classify_constraint_type (pyLower "asdkjasd qweoiqwe".data) = "unknown" :=
    hiff.mpr (by decide)
  exact ⟨hu, (hslots hu).1⟩

/-- C3: the returned confidence is exactly the clamped sum
min(1, 0.3·[type known] + min(0.3, 0.1·entities) + min(0.2, 0.1·conditions)
+ 0.2·[populated category record]) and always lies in [0,1]. -/
theorem C3_confidence (t : String) :
    (parse_constraint t).confidence = confidence_spec (parse_constraint t) ∧
    0 ≤ (parse_constraint t).confidence ∧ (parse_constraint t).confidence ≤ 1 := by
  have h1 : (parse_constraint t).confidence = confidence_spec (assemble_result t) :=
    parse_constraint_confidence t
  have h2 : confidence_spec (parse_constraint t) = confidence_spec (assemble_result t) :=
    confidence_spec_confupdate (assemble_result t) _
  refine ⟨by rw [h1, h2], ?_, ?_⟩
  · rw [h1]; exact confidence_spec_nonneg _
  · rw [h1]; exact confidence_spec_le_one _

/-- C4 (spec scenario 1): "Team A cannot play before 6:00 PM on Fridays"
is temporal; the entities include day_of_week "Friday" (0.95) and time
"6:00 PM" (0.9); `before_time` is "6:00 pm"; and since "cannot" is
checked before "before", the only condition is
not_equals/specified_time. -/
theorem C4_scenario1 :
    (parse_constraint "Team A cannot play before 6:00 PM on Fridays").type =
      "temporal" ∧
    ({ type := "day_of_week", value := .str "Friday", confidence := 95/100 } : Entity)
      ∈ (parse_constraint "Team A cannot play before 6:00 PM on Fridays").entities ∧
    ({ type := "time", value := .str "6:00 PM", confidence := 9/10 } : Entity)
      ∈ (parse_constraint "Team A cannot play before 6:00 PM on Fridays").entities ∧
    ((parse_constraint "Team A cannot play before 6:00 PM on Fridays").temporal.map
      Temporal.before_time) = some (some "6:00 pm") ∧
    (parse_constraint "Team A cannot play before 6:00 PM on Fridays").conditions =
      [{ operator := "not_equals", value := "specified_time" }] := by
  have hE : (parse_constraint "Team A cannot play before 6:00 PM on Fridays").entities =
      [{ type := "team", value := .str "Team A", confidence := 8/10 },
       { type := "team", value := .str "Fridays", confidence := 8/10 },
       { type := "day_of_week", value := .str "Friday", confidence := 95/100 },
       { type := "time", value := .str "6:00 PM", confidence := 9/10 },
       { type := "number", value := .num 6, confidence := 85/100 },
       { type := "number", value := .num 0, confidence := 85/100 }] := rfl
  refine ⟨by decide, ?_, ?_, by decide, by decide⟩
  · rw [hE]; exact .tail _ (.tail _ (.head _))
  · rw [hE]; exact .tail _ (.tail _ (.tail _ (.head _)))

/-- C5: exactly one of the five category slots is set — the one matching
the returned type — while the other four keep their defaults; when the
type is "unknown" all five stay default. -/
theorem C5_slots (t : String) :
    ((parse_constraint t).type = "temporal" ∨ (parse_constraint t).type = "capacity" ∨
     (parse_constraint t).type = "location" ∨ (parse_constraint t).type = "rest" ∨
     (parse_constraint t).type = "preference" ∨ (parse_constraint t).type = "unknown") ∧
    ((parse_constraint t).type = "unknown" →
      (parse_constraint t).temporal = none ∧ (parse_constraint t).capacity = none ∧
      (parse_constraint t).location = none ∧ (parse_constraint t).preference = none ∧
      (parse_constraint t).rest = none) ∧
    ((parse_constraint t).type = "temporal" →
      (parse_constraint t).temporal.isSome = true ∧
      (parse_constraint t).capacity = none ∧ (parse_constraint t).location = none ∧
      (parse_constraint t).preference = none ∧ (parse_constraint t).rest = none) ∧
    ((parse_constraint t).type = "capacity" →
      (parse_constraint t).capacity.isSome = true ∧
      (parse_constraint t).temporal = none ∧ (parse_constraint t).location = none ∧
      (parse_constraint t).preference = none ∧ (parse_constraint t).rest = none) ∧
    ((parse_constraint t).type = "location" →
      (parse_constraint t).location.isSome = true ∧
      (parse_constraint t).temporal = none ∧ (parse_constraint t).capacity = none ∧
      (parse_constraint t).preference = none ∧ (parse_constraint t).rest = none) ∧
    ((parse_constraint t).type = "rest" →
      (parse_constraint t).rest.isSome = true ∧
      (parse_constraint t).temporal = none ∧ (parse_constraint t).capacity = none ∧
      (parse_constraint t).location = none ∧ (parse_constraint t).preference = none) ∧
    ((parse_constraint t).type = "preference" →
      (parse_constraint t).preference.isSome = true ∧
      (parse_constraint t).temporal = none ∧ (parse_constraint t).capacity = none ∧
      (parse_constraint t).location = none ∧ (parse_constraint t).rest = none) := by
  rcases classify_cases (pyLower t.data) with h | h | h | h | h | h <;>
    rw [parse_constraint_eq] <;>
    [rw [assemble_result_of_temporal t h]; rw [assemble_result_of_capacity t h];
     rw [assemble_result_of_location t h]; rw [assemble_result_of_rest t h];
     rw [assemble_result_of_preference t h]; rw [assemble_result_of_unknown t h]] <;>
    simp

/-- Witness for C5 on "rest": the rest slot is set, the temporal slot
stays default. -/
theorem C5_slots_witness :
    (parse_constraint "rest").rest.isSome = true ∧
    (parse_constraint "rest").temporal = none := by
  obtain ⟨-, -, -, -, -, hrest, -⟩ := C5_slots "rest"
  have h := hrest (by decide)
  exact ⟨h.1, h.2.1⟩

/-- C6: the entity list of the result is the classification-independent
`extract_entities`, which is the concatenation of the five scans in the
fixed order team, day_of_week, time, number, venue; the number scan is
not deduplicated: "6:00" yields number entities for the digit runs "6"
and "00" besides the time entity. -/
theorem C6_entities (t : String) :
    (parse_constraint t).entities = extract_entities t.data ∧
    extract_entities t.data =
      teamEntities t.data ++ dayEntities t.data ++ timeEntities t.data ++
        numberEntities t.data ++ venueEntities t.data ∧
    extract_entities "6:00".data =
      [{ type := "time", value := .str "6:00", confidence := 9/10 },
       { type := "number", value := .num 6, confidence := 85/100 },
       { type := "number", value := .num 0, confidence := 85/100 }] :=
  ⟨parse_constraint_entities t, rfl, rfl⟩

/-- C7: every result carries at most one condition; each condition
extractor yields at most one condition, and only the first matching rule
of its if/elif chain fires — on a text containing both "cannot" and
"before" the temporal extractor emits only not_equals. -/
theorem C7_conditions (t : String) (l : List Char) :
    (parse_constraint t).conditions.length ≤ 1 ∧
    (extract_temporal_conditions l).length ≤ 1 ∧
    (extract_capacity_conditions l).length ≤ 1 ∧
    (extract_location_conditions l).length ≤ 1 ∧
    (extract_rest_conditions l).length ≤ 1 ∧
    (extract_preference_conditions l).length ≤ 1 ∧
    extract_temporal_conditions "cannot play before 6 pm".data =
      [{ operator := "not_equals", value := "specified_time" }] := by
  refine ⟨?_, cond_len_temporal l, cond_len_capacity l, cond_len_location l,
    cond_len_rest l, cond_len_preference l, by decide⟩
  rw [parse_constraint_conditions]
  rcases classify_cases (pyLower t.data) with h | h | h | h | h | h <;>
    [rw [assemble_result_of_temporal t h]; rw [assemble_result_of_capacity t h];
     rw [assemble_result_of_location t h]; rw [assemble_result_of_rest t h];
     rw [assemble_result_of_preference t h]; rw [assemble_result_of_unknown t h]] <;>
    first
      | exact cond_len_temporal _
      | exact cond_len_capacity _
      | exact cond_len_location _
      | exact cond_len_rest _
      | exact cond_len_preference _
      | simp

/-- C8: the pipeline is total and always yields a well-formed result:
the type is one of the six categories, the confidence and every entity
confidence lie in [0,1] (digit-group conversion is total on the matched
digit runs by construction). -/
theorem C8_total (t : String) : WellFormedResult (parse_constraint t) := by
  refine ⟨?_, ?_, ?_, ?_⟩
  · rw [parse_constraint_type]; exact classify_cases _
  · rw [parse_constraint_confidence]; exact confidence_spec_nonneg _
  · rw [parse_constraint_confidence]; exact confidence_spec_le_one _
  · intro e he
    rw [parse_constraint_entities] at he
    rcases entity_confidence_cases _ e he with h | h | h | h <;> rw [h] <;> norm_num

/-- C9: any text whose lower-cased form contains the substring "am"
(which includes any text containing "team" or "game") gives temporal a
score of at least 1, so classification never returns "unknown". -/
theorem C9_am_substring (t : String)
    (h : pyContains (pyLower t.data) "am".data = true ∨
         pyContains (pyLower t.data) "team".data = true ∨
         pyContains (pyLower t.data) "game".data = true) :
    1 ≤ keywordScore temporal_keywords (pyLower t.data) ∧
    classify_constraint_type (pyLower t.data) ≠ "unknown" ∧
    (parse_constraint t).type ≠ "unknown" := by
  have ham : pyContains (pyLower t.data) "am".data = true := by
    rcases h with h | h | h
    · exact h
    · have h1 : "team".data <:+: pyLower t.data := of_decide_eq_true h
      have h2 : "am".data <:+: "team".data := by decide
      exact decide_eq_true (h2.trans h1)
    · have h1 : "game".data <:+: pyLower t.data := of_decide_eq_true h
      have h2 : "am".data <:+: "game".data := by decide
      exact decide_eq_true (h2.trans h1)
  have hmem : "am" ∈ temporal_keywords.filter
      (fun k => pyContains (pyLower t.data) k.data) :=
    List.mem_filter.mpr ⟨by decide, ham⟩
  have hsc : 1 ≤ keywordScore temporal_keywords (pyLower t.data) :=
    List.length_pos.mpr (List.ne_nil_of_mem hmem)
  have hne : classify_constraint_type (pyLower t.data) ≠ "unknown" := by
    intro hu
    have hz := (first_max_category_unknown_iff _ _ _ _ _).mp hu
    omega
  exact ⟨hsc, hne, by rw [parse_constraint_type]; exact hne⟩

/-- Witness for C9 on "game" ("am" occurs inside "game"). -/
theorem C9_am_substring_witness :
    1 ≤ keywordScore temporal_keywords (pyLower "game".data) ∧
    classify_constraint_type (pyLower "game".data) ≠ "unknown" ∧
    (parse_constraint "game").type ≠ "unknown" :=
  C9_am_substring "game" (Or.inl (by decide))

/-- C10: every input classified rest or preference scores at least 0.5:
the classification term contributes 0.3 and the always-populated field
(`between_events = true`, resp. `weight = 0.5`) contributes 0.2. -/
theorem C10_rest_preference_half (t : String)
    (h : (parse_constraint t).type = "rest" ∨
         (parse_constraint t).type = "preference") :
    1/2 ≤ (parse_constraint t).confidence := by
  rw [parse_constraint_confidence]
  rw [parse_constraint_type] at h
  rcases h with h | h
  · apply confidence_spec_ge_half
    · rw [assemble_result_type, h]; decide
    · rw [assemble_result_of_rest t h]
      simp [constraintDataPopulated, restPopulated]
  · apply confidence_spec_ge_half
    · rw [assemble_result_type, h]; decide
    · rw [assemble_result_of_preference t h]
      simp [constraintDataPopulated, preferencePopulated]

/-- Witness for C10 on "rest" (classified rest, nothing else extracted). -/
theorem C10_rest_preference_half_witness :
    1/2 ≤ (parse_constraint "rest").confidence :=
  C10_rest_preference_half "rest" (Or.inl (by decide))

end ConstraintParser
